import Mathlib

/-!
Shallow embedding of the AccessMap Ithaca client (src/src/App.jsx) and
verification of its specification.  Geographic coordinates are modelled as
exact rationals; the React component state is a record `AppState`, and each
handler of the component becomes a pure state-transformer.  Asynchronous
remote effects (Firestore writes/deletes) are modelled by explicit outcome
parameters and by event traces emitted alongside the new state.
-/

/-- A geographic point. In the source a local path point is the ordered pair
[lat, lng]; we record the two coordinates as fields. -/
structure Point where
  lat : ℚ
  lng : ℚ
deriving DecidableEq, Repr

/-- A contributed segment as held in the local `segments` state
(App.jsx lines 408-416 and the snapshot mapping at lines 68-79).
`author_uid` is optional because remote records may lack the field. -/
structure Segment where
  id : String
  path : List Point
  category : String
  note : String
  image : Option String
  createdAt : Nat
  author_uid : Option String
deriving DecidableEq, Repr

/-- The signed-in identity produced by the auth provider. -/
structure User where
  uid : String
  displayName : Option String
  email : Option String
deriving DecidableEq, Repr

/-- The component state of `AccessMap` (the useState hooks of App.jsx plus
the `lastPointRef` ref). -/
structure AppState where
  segments : List Segment
  user : Option User
  isDrawing : Bool
  currentPath : List Point
  showSubmissionForm : Bool
  segmentToDelete : Option String
  selectedCategory : String
  note : String
  selectedImage : Option String
  lastPoint : Option Point
deriving DecidableEq, Repr

/-- The initial values of the useState hooks (App.jsx lines 50-114). -/
def initialState : AppState where
  segments := []
  user := none
  isDrawing := false
  currentPath := []
  showSubmissionForm := false
  segmentToDelete := none
  selectedCategory := "accessible"
  note := ""
  selectedImage := none
  lastPoint := none

/-- App.jsx lines 344-349, `startDrawing`. -/
def startDrawing (s : AppState) : AppState :=
  { s with isDrawing := true, currentPath := [], lastPoint := none,
           showSubmissionForm := false }

/-- App.jsx lines 351-358, `cancelDrawing`.  Resets the drawing flag, path,
last point, submission-form flag, image and note.  It does not touch
`selectedCategory`. -/
def cancelDrawing (s : AppState) : AppState :=
  { s with isDrawing := false, currentPath := [], lastPoint := none,
           showSubmissionForm := false, selectedImage := none, note := "" }

/-- Result of `finishDrawing`: either the too-few-points alert or the
transition into the submission form. -/
inductive FinishResult where
  | insufficientPoints
  | readyForSubmission
deriving DecidableEq, Repr

/-- App.jsx lines 360-367, `finishDrawing`.  With fewer than 2 points it
alerts and returns without changing state; otherwise it leaves drawing mode
and opens the submission form. -/
def finishDrawing (s : AppState) : AppState × FinishResult :=
  if s.currentPath.length < 2 then
    (s, FinishResult.insufficientPoints)
  else
    ({ s with isDrawing := false, showSubmissionForm := true },
     FinishResult.readyForSubmission)

/-- App.jsx lines 238-252, `handleMapClickLogic`.  A click is ignored unless
the drawing flag is set; the first accepted click starts the path, each
later one is appended, and the last point is remembered. -/
def handleMapClickLogic (s : AppState) (latlng : Point) : AppState :=
  if s.isDrawing = false then s
  else
    match s.lastPoint with
    | some _ =>
        { s with currentPath := s.currentPath ++ [latlng],
                 lastPoint := some latlng }
    | none =>
        { s with currentPath := [latlng], lastPoint := some latlng }

/-- Deliver a sequence of map clicks in order. -/
def deliverClicks (s : AppState) (ps : List Point) : AppState :=
  ps.foldl handleMapClickLogic s

theorem handleMapClickLogic_drawing (s : AppState) (p : Point)
    (h : s.isDrawing = true) :
    handleMapClickLogic s p =
      (match s.lastPoint with
       | some _ => { s with currentPath := s.currentPath ++ [p],
                            lastPoint := some p }
       | none => { s with currentPath := [p], lastPoint := some p }) := by
  simp [handleMapClickLogic, h]

theorem deliverClicks_appends (ps : List Point) (s : AppState)
    (hd : s.isDrawing = true) (hl : ∃ q, s.lastPoint = some q) :
    (deliverClicks s ps).currentPath = s.currentPath ++ ps := by
  induction ps generalizing s with
  | nil => simp [deliverClicks]
  | cons p ps ih =>
      obtain ⟨q, hq⟩ := hl
      have : deliverClicks s (p :: ps) =
          deliverClicks { s with currentPath := s.currentPath ++ [p],
                                 lastPoint := some p } ps := by
        simp [deliverClicks, handleMapClickLogic, hd, hq]
      rw [this,
        ih { s with currentPath := s.currentPath ++ [p], lastPoint := some p }
          hd ⟨p, rfl⟩]
      simp

/-- App.jsx lines 381-390, the dimension computation inside
`handleImageUpload`: if the image is wider than tall, a width above 800 is
capped at 800 with the height scaled proportionally; otherwise a height
above 600 is capped at 600 with the width scaled proportionally. -/
def scaleDimensions (w h : ℚ) : ℚ × ℚ :=
  if w > h then
    if w > 800 then (800, h * (800 / w)) else (w, h)
  else
    if h > 600 then (w * (600 / h), 600) else (w, h)

/-- App.jsx lines 370-375: an upload above 5 * 1024 * 1024 bytes is
rejected before any decoding happens. -/
def imageSizeAccepted (sizeBytes : Nat) : Bool :=
  !(sizeBytes > 5 * 1024 * 1024)

/-- A path point in the Firestore wire form, as read back by the snapshot
mapping (App.jsx lines 71-75): either a two-element numeric array, a
structured lat-lng object, or something malformed. -/
inductive WirePoint where
  | arr (lat lng : ℚ)
  | obj (lat lng : ℚ)
  | malformed
deriving DecidableEq, Repr

/-- App.jsx lines 71-75, the per-point normalization applied to each remote
snapshot: arrays pass through, lat-lng objects become ordered pairs, and
anything else is dropped by the `.filter(Boolean)`. -/
def normalizeWirePoint : WirePoint → Option Point
  | WirePoint.arr la ln => some ⟨la, ln⟩
  | WirePoint.obj la ln => some ⟨la, ln⟩
  | WirePoint.malformed => none

/-- The whole-path normalization of the snapshot mapping: map each raw
point and drop the nulls. -/
def normalizeWirePath (raw : List WirePoint) : List Point :=
  raw.filterMap normalizeWirePoint

/-- App.jsx line 424: on submit each local ordered pair is written as a
structured lat-lng object. -/
def pathToWire (path : List Point) : List WirePoint :=
  path.map (fun p => WirePoint.obj p.lat p.lng)

/-- The Firestore payload built in `submitSegment` (App.jsx lines 422-426).
The `createdAt` field is replaced by the serverTimestamp sentinel on the
wire, so it is not part of the modelled payload. -/
structure WireSegment where
  id : String
  path : List WirePoint
  category : String
  note : String
  image : Option String
  author_uid : String
deriving DecidableEq, Repr

/-- The segment constructed by `submitSegment` (App.jsx lines 408-416);
`now` stands for the shared Date.now() / new Date() instant used for the
client-side id and the provisional timestamp. -/
def mkNewSegment (s : AppState) (u : User) (now : Nat) : Segment where
  id := toString now
  path := s.currentPath
  category := s.selectedCategory
  note := s.note
  image := s.selectedImage
  createdAt := now
  author_uid := some u.uid

/-- The wire form of a freshly constructed segment (App.jsx lines 422-426). -/
def mkPayload (seg : Segment) (u : User) : WireSegment where
  id := seg.id
  path := pathToWire seg.path
  category := seg.category
  note := seg.note
  image := seg.image
  author_uid := u.uid

/-- Outcome of a `submitSegment` call. -/
inductive SubmitResult where
  | unauthenticated
  | ok (payload : WireSegment)
deriving DecidableEq, Repr

/-- Observable steps taken by `submitSegment`, in order. -/
inductive SubmitEvent where
  | localAppend (seg : Segment)
  | remoteWrite (payload : WireSegment)
  | alertWriteFailed
deriving DecidableEq, Repr

/-- App.jsx lines 403-439, `submitSegment`.  Without a signed-in user it
alerts and returns with nothing changed.  Otherwise it appends the new
segment to the local set, then attempts the Firestore write
(`writeSucceeds` models the outcome of `addDoc`); a failed write only
alerts and never removes the optimistic local entry.  Finally the form
state is reset. -/
def submitSegment (s : AppState) (now : Nat) (writeSucceeds : Bool) :
    AppState × SubmitResult × List SubmitEvent :=
  match s.user with
  | none => (s, SubmitResult.unauthenticated, [])
  | some u =>
      let newSegment := mkNewSegment s u now
      let payload := mkPayload newSegment u
      let events :=
        [SubmitEvent.localAppend newSegment, SubmitEvent.remoteWrite payload]
          ++ (if writeSucceeds then [] else [SubmitEvent.alertWriteFailed])
      let s1 := { s with segments := s.segments ++ [newSegment] }
      let s2 := { s1 with showSubmissionForm := false, currentPath := [],
                          note := "", selectedImage := none,
                          selectedCategory := "accessible", lastPoint := none }
      (s2, SubmitResult.ok payload, events)

/-- JavaScript truthiness of the optional `author_uid` string field: absent
and empty-string values are both falsy. -/
def authorUidTruthy : Option String → Bool
  | none => false
  | some a => a ≠ ""

/-- App.jsx line 132, the refusal condition of `handleConfirmDelete`: the
segment was found, its `author_uid` is truthy, and either nobody is signed
in or the signed-in uid differs from the author uid. -/
def deleteRefused (seg : Segment) (user : Option User) : Bool :=
  authorUidTruthy seg.author_uid &&
    (match user with
     | none => true
     | some u => seg.author_uid != some u.uid)

/-- The delete-authorization check: deletion is permitted exactly when the
refusal condition of App.jsx line 132 does not fire. -/
def canDelete (seg : Segment) (user : Option User) : Bool :=
  !(deleteRefused seg user)

/-- Outcome of a `handleConfirmDelete` call. -/
inductive DeleteAction where
  | noPending
  | forbidden
  | notFoundRemote
  | remoteDelete (id : String)
  | deleteFailed
deriving DecidableEq, Repr

/-- App.jsx lines 128-160, `handleConfirmDelete`.  With no pending id it
returns immediately.  Otherwise it looks the segment up locally; if the
ownership check refuses, it alerts and clears the pending id without
touching the segment list.  Otherwise the async block checks the remote
document (`remoteExists` models the getDoc result) and either reports that
it is already gone or issues the remote delete (`remoteDeleteOk` models the
deleteDoc outcome); the local segment list is never mutated directly. -/
def handleConfirmDelete (s : AppState) (remoteExists remoteDeleteOk : Bool) :
    AppState × DeleteAction :=
  match s.segmentToDelete with
  | none => (s, DeleteAction.noPending)
  | some tid =>
      let seg? := s.segments.find? (fun sg => sg.id == tid)
      if (seg?.map (fun seg => deleteRefused seg s.user)).getD false then
        ({ s with segmentToDelete := none }, DeleteAction.forbidden)
      else if !remoteExists then
        ({ s with segmentToDelete := none }, DeleteAction.notFoundRemote)
      else if remoteDeleteOk then
        ({ s with segmentToDelete := none }, DeleteAction.remoteDelete tid)
      else
        ({ s with segmentToDelete := none }, DeleteAction.deleteFailed)

/-! Concrete fixtures used by counterexamples and witnesses. -/

/-- A concrete signed-in user. -/
def aliceUser : User where
  uid := "alice"
  displayName := none
  email := none

/-- A concrete stored segment authored by alice. -/
def aliceSegment : Segment where
  id := "s1"
  path := [⟨1, 2⟩, ⟨3, 4⟩]
  category := "accessible"
  note := ""
  image := none
  createdAt := 0
  author_uid := some "alice"

/-- A state with alice's segment staged for deletion while nobody is
signed in. -/
def pendingDeleteNoUserState : AppState :=
  { initialState with segments := [aliceSegment], segmentToDelete := some "s1" }

/-- A state where alice is signed in but only one point was drawn. -/
def shortPathState : AppState :=
  { initialState with user := some aliceUser, currentPath := [⟨1, 2⟩] }

/-- A state where alice is signed in with a finished two-point path and a
non-default category, note and image. -/
def readySubmitState : AppState :=
  { initialState with user := some aliceUser,
                      currentPath := [⟨1, 2⟩, ⟨3, 4⟩],
                      showSubmissionForm := true,
                      selectedCategory := "partial",
                      note := "bumpy bricks",
                      selectedImage := some "dataurl" }

/-- An active drawing session holding a single point. -/
def activeOnePointState : AppState :=
  { initialState with isDrawing := true, currentPath := [⟨1, 2⟩],
                      lastPoint := some ⟨1, 2⟩ }

/-! Claim theorems. -/

/-- C1: the delete-authorization check permits deletion exactly when the
author uid of the segment is unset (JS-falsy) or equals the signed-in uid;
in particular, with no identity present and a set author uid,
handleConfirmDelete answers forbidden and leaves the segment set
untouched. -/
theorem canDelete_iff_unset_or_owner :
    (∀ (seg : Segment) (user : Option User),
        canDelete seg user = true ↔
          (authorUidTruthy seg.author_uid = false ∨
           ∃ u, user = some u ∧ seg.author_uid = some u.uid)) ∧
    (∀ (s : AppState) (tid : String) (re rd : Bool) (seg : Segment),
        s.user = none →
        s.segmentToDelete = some tid →
        s.segments.find? (fun sg => sg.id == tid) = some seg →
        authorUidTruthy seg.author_uid = true →
        (handleConfirmDelete s re rd).2 = DeleteAction.forbidden ∧
        (handleConfirmDelete s re rd).1.segments = s.segments) := by
  constructor
  · intro seg user
    cases hau : seg.author_uid with
    | none => simp [canDelete, deleteRefused, authorUidTruthy, hau]
    | some a =>
        cases user with
        | none => simp [canDelete, deleteRefused, authorUidTruthy, hau]
        | some u =>
            simp only [canDelete, deleteRefused, authorUidTruthy, hau]
            simp only [Bool.not_eq_true', Bool.and_eq_false_iff,
              decide_eq_false_iff_not, not_not, bne_eq_false_iff_eq,
              Option.some.injEq]
            constructor
            · rintro (h | h)
              · exact Or.inl (by simp [h])
              · exact Or.inr ⟨u, rfl, by simp [h]⟩
            · rintro (h | ⟨u0, hu0, ha⟩)
              · exact Or.inl (by simpa using h)
              · cases hu0
                exact Or.inr (by simpa using ha)
  · intro s tid re rd seg hu ht hfind hset
    have hr : deleteRefused seg s.user = true := by
      simp [deleteRefused, hu, hset]
    simp [handleConfirmDelete, ht, hfind, hr]

/-- Witness for C1: the concrete refusal with nobody signed in. -/
theorem canDelete_iff_unset_or_owner_witness :
    (handleConfirmDelete pendingDeleteNoUserState true true).2 =
        DeleteAction.forbidden ∧
    (handleConfirmDelete pendingDeleteNoUserState true true).1.segments =
        pendingDeleteNoUserState.segments :=
  canDelete_iff_unset_or_owner.2 pendingDeleteNoUserState "s1" true true
    aliceSegment rfl rfl (by decide) (by decide)

/-- C2 counterexample: with alice signed in and a single-point path,
submitSegment does not fail; it appends the segment to the local set and
issues the remote write anyway. -/
theorem submit_short_path_counterexample :
    (submitSegment shortPathState 7 true).1.segments ≠
        shortPathState.segments ∧
    (submitSegment shortPathState 7 true).2.1 ≠
        SubmitResult.unauthenticated ∧
    SubmitEvent.remoteWrite
        (mkPayload (mkNewSegment shortPathState aliceUser 7) aliceUser) ∈
      (submitSegment shortPathState 7 true).2.2 := by
  refine ⟨?_, ?_, ?_⟩ <;> decide

/-- C2 amended: submitSegment performs no path-length validation at all:
with any signed-in user it appends the new segment to the local set and
reports the wire payload, whatever the length of the current path (the
2-point minimum is enforced only by finishDrawing). -/
theorem submit_no_length_validation (s : AppState) (u : User) (now : Nat)
    (w : Bool) (h : s.user = some u) :
    (submitSegment s now w).1.segments =
        s.segments ++ [mkNewSegment s u now] ∧
    (submitSegment s now w).2.1 =
        SubmitResult.ok (mkPayload (mkNewSegment s u now) u) := by
  simp [submitSegment, h]

/-- Witness for the amended C2 on the one-point state. -/
theorem submit_no_length_validation_witness :
    (submitSegment shortPathState 7 true).1.segments =
        shortPathState.segments ++ [mkNewSegment shortPathState aliceUser 7] ∧
    (submitSegment shortPathState 7 true).2.1 =
        SubmitResult.ok
          (mkPayload (mkNewSegment shortPathState aliceUser 7) aliceUser) :=
  submit_no_length_validation shortPathState aliceUser 7 true rfl

/-- C3 counterexample: cancelDrawing leaves a non-default selected category
in place instead of resetting it to its initial value. -/
theorem cancel_keeps_category_counterexample :
    (cancelDrawing readySubmitState).selectedCategory = "partial" ∧
    (cancelDrawing readySubmitState).selectedCategory ≠
        initialState.selectedCategory := by
  refine ⟨?_, ?_⟩ <;> decide

/-- C3 amended: cancelDrawing returns to Idle and resets the path, the
note, the image, the last point and the submission-form flag to their
initial values, but the selected category keeps its current value (it is
reset only after a successful submit). -/
theorem cancel_resets_all_but_category (s : AppState) :
    (cancelDrawing s).isDrawing = false ∧
    (cancelDrawing s).currentPath = initialState.currentPath ∧
    (cancelDrawing s).note = initialState.note ∧
    (cancelDrawing s).selectedImage = initialState.selectedImage ∧
    (cancelDrawing s).lastPoint = initialState.lastPoint ∧
    (cancelDrawing s).showSubmissionForm = false ∧
    (cancelDrawing s).selectedCategory = s.selectedCategory := by
  simp [cancelDrawing, initialState]

/-- C4 counterexample: a 1000 by 900 image is wider than tall, so only the
width is capped; the scaled height 720 exceeds the claimed 600 ceiling. -/
theorem scale_height_over_600_counterexample :
    scaleDimensions 1000 900 = (800, 720) ∧
    ¬ (scaleDimensions 1000 900).2 ≤ 600 := by
  constructor <;> norm_num [scaleDimensions]

/-- C4 amended: the computed dimensions preserve the aspect ratio and keep
the width at most 800 and the height at most 800; the 600 ceiling on the
height is guaranteed only when the image is not wider than tall.  For a
2000 by 1000 input the output is exactly 800 by 400. -/
theorem scaleDimensions_bounds (w h : ℚ) (hw : 0 < w) (hh : 0 < h) :
    (scaleDimensions w h).1 * h = (scaleDimensions w h).2 * w ∧
    (scaleDimensions w h).1 ≤ 800 ∧
    (scaleDimensions w h).2 ≤ 800 ∧
    (w ≤ h → (scaleDimensions w h).2 ≤ 600) ∧
    (w = 2000 → h = 1000 → scaleDimensions w h = (800, 400)) := by
  unfold scaleDimensions
  split
  · rename_i hwh
    split
    · rename_i hw800
      have hw0 : w ≠ 0 := ne_of_gt hw
      refine ⟨by field_simp; ring, by norm_num, ?_, ?_, ?_⟩
      · have : h * (800 / w) ≤ w * (800 / w) := by
          apply mul_le_mul_of_nonneg_right (le_of_lt hwh)
          positivity
        calc h * (800 / w) ≤ w * (800 / w) := this
          _ = 800 := by field_simp
      · intro hle
        exact absurd hle (not_le.mpr hwh)
      · intro hw2 hh2
        subst hw2; subst hh2
        norm_num
    · rename_i hw800
      push_neg at hw800
      refine ⟨by ring, hw800, le_trans (le_of_lt hwh) hw800, ?_, ?_⟩
      · intro hle
        exact absurd hle (not_le.mpr hwh)
      · intro hw2 hh2
        subst hw2
        norm_num at hw800
  · rename_i hwh
    push_neg at hwh
    split
    · rename_i hh600
      have hh0 : h ≠ 0 := ne_of_gt hh
      refine ⟨by field_simp; ring, ?_, by norm_num, fun _ => by norm_num, ?_⟩
      · have : w * (600 / h) ≤ h * (600 / h) := by
          apply mul_le_mul_of_nonneg_right hwh
          positivity
        calc w * (600 / h) ≤ h * (600 / h) := this
          _ = 600 := by field_simp
          _ ≤ 800 := by norm_num
      · intro hw2 hh2
        subst hw2; subst hh2
        norm_num at hwh
    · rename_i hh600
      push_neg at hh600
      have hw600 : w ≤ 600 := le_trans hwh hh600
      refine ⟨by ring, le_trans hw600 (by norm_num),
        le_trans hh600 (by norm_num), fun _ => hh600, ?_⟩
      intro hw2 hh2
      subst hh2
      norm_num at hh600

/-- Witness for the amended C4: the 2000 by 1000 instance. -/
theorem scaleDimensions_bounds_witness :
    scaleDimensions 2000 1000 = (800, 400) :=
  (scaleDimensions_bounds 2000 1000 (by norm_num) (by norm_num)).2.2.2.2
    rfl rfl

/-- C5: delivering any sequence of clicks right after startDrawing yields a
current path equal to the clicked points in order, duplicates included. -/
theorem clicks_build_path_in_order (s : AppState) (ps : List Point) :
    (deliverClicks (startDrawing s) ps).currentPath = ps := by
  cases ps with
  | nil => simp [deliverClicks, startDrawing]
  | cons p ps =>
      have h1 : deliverClicks (startDrawing s) (p :: ps) =
          deliverClicks (handleMapClickLogic (startDrawing s) p) ps := by
        simp [deliverClicks]
      have hd : (handleMapClickLogic (startDrawing s) p).isDrawing = true := by
        simp [handleMapClickLogic, startDrawing]
      have hl : (handleMapClickLogic (startDrawing s) p).lastPoint = some p := by
        simp [handleMapClickLogic, startDrawing]
      have hc : (handleMapClickLogic (startDrawing s) p).currentPath = [p] := by
        simp [handleMapClickLogic, startDrawing]
      rw [h1, deliverClicks_appends ps (handleMapClickLogic (startDrawing s) p)
        hd ⟨p, hl⟩, hc]
      simp

/-- C6: a local path written to the wire as lat-lng objects and normalized
back by the snapshot mapping is recovered exactly. -/
theorem wire_path_roundtrip (path : List Point) :
    normalizeWirePath (pathToWire path) = path := by
  induction path with
  | nil => rfl
  | cons p ps ih =>
      simp [normalizeWirePath, pathToWire, normalizeWirePoint,
        List.filterMap_cons] at ih ⊢
      exact ih

/-- C7: with nobody signed in, submitSegment alerts and returns: the state,
including the local segment set, is unchanged and no event (in particular
no remote write) happens. -/
theorem submit_unauthenticated_unchanged (s : AppState) (now : Nat)
    (w : Bool) (h : s.user = none) :
    submitSegment s now w = (s, SubmitResult.unauthenticated, []) := by
  simp [submitSegment, h]

/-- Witness for C7: the initial state with nobody signed in. -/
theorem submit_unauthenticated_unchanged_witness :
    submitSegment initialState 3 true =
      (initialState, SubmitResult.unauthenticated, []) :=
  submit_unauthenticated_unchanged initialState 3 true rfl

/-- C8: on an active session, finishDrawing with fewer than 2 points
reports insufficient points and changes nothing (the session stays active
with the same path); with at least 2 points it leaves drawing mode and
signals readiness for submission. -/
theorem finish_two_point_minimum (s : AppState) (h : s.isDrawing = true) :
    (s.currentPath.length < 2 →
        finishDrawing s = (s, FinishResult.insufficientPoints) ∧
        (finishDrawing s).1.isDrawing = true) ∧
    (2 ≤ s.currentPath.length →
        (finishDrawing s).2 = FinishResult.readyForSubmission ∧
        (finishDrawing s).1.isDrawing = false ∧
        (finishDrawing s).1.showSubmissionForm = true ∧
        (finishDrawing s).1.currentPath = s.currentPath) := by
  constructor
  · intro hlen
    simp [finishDrawing, hlen, h]
  · intro hlen
    simp [finishDrawing, Nat.not_lt.mpr hlen]

/-- Witness for C8: the single-point active session is rejected and left
untouched. -/
theorem finish_two_point_minimum_witness :
    finishDrawing activeOnePointState =
        (activeOnePointState, FinishResult.insufficientPoints) ∧
    (finishDrawing activeOnePointState).1.isDrawing = true :=
  (finish_two_point_minimum activeOnePointState rfl).1 (by decide)

/-- C9: a submit by a signed-in user appends the optimistic local entry
before issuing the remote write (the event order), and when the remote
write fails the failure is only alerted: the appended entry stays in the
local set. -/
theorem submit_optimistic_no_rollback (s : AppState) (u : User) (now : Nat)
    (h : s.user = some u) (_hlen : 2 ≤ s.currentPath.length) :
    (submitSegment s now false).2.2 =
      [SubmitEvent.localAppend (mkNewSegment s u now),
       SubmitEvent.remoteWrite (mkPayload (mkNewSegment s u now) u),
       SubmitEvent.alertWriteFailed] ∧
    (submitSegment s now false).1.segments =
      s.segments ++ [mkNewSegment s u now] := by
  simp [submitSegment, h]

/-- Witness for C9: alice submits a two-point path and the remote write
fails. -/
theorem submit_optimistic_no_rollback_witness :
    (submitSegment readySubmitState 11 false).2.2 =
      [SubmitEvent.localAppend (mkNewSegment readySubmitState aliceUser 11),
       SubmitEvent.remoteWrite
         (mkPayload (mkNewSegment readySubmitState aliceUser 11) aliceUser),
       SubmitEvent.alertWriteFailed] ∧
    (submitSegment readySubmitState 11 false).1.segments =
      readySubmitState.segments ++ [mkNewSegment readySubmitState aliceUser 11] :=
  submit_optimistic_no_rollback readySubmitState aliceUser 11 rfl (by decide)

/-- C10: a click delivered while the drawing flag is false is a complete
no-op: the state, in particular the current path and the last point, is
returned unchanged. -/
theorem click_ignored_when_not_drawing (s : AppState) (p : Point)
    (h : s.isDrawing = false) :
    handleMapClickLogic s p = s := by
  simp [handleMapClickLogic, h]

/-- Witness for C10: a click on the initial, non-drawing state. -/
theorem click_ignored_when_not_drawing_witness :
    handleMapClickLogic initialState ⟨1, 2⟩ = initialState :=
  click_ignored_when_not_drawing initialState ⟨1, 2⟩ rfl
